import Mathlib

/-!
Verification of the structeasy geometry records and helper functions.

The Python records `Node` and `Element` (structeasy_class.py) are embedded as
Lean structures over exact rationals (the idealisation of the float fields);
`Element.length` returns an `Option ℝ` because the square root is a real
number and the Python method returns `None` for anything other than a
two-node element.  The library functions of structeasy_lib.py that the claims
touch (`assign_tag`, the colour logic of `plot_model`, `start_model`,
`material_tester`) are embedded with their external collaborators (gmsh,
OpenSeesPy, plotly/matplotlib) abstracted as explicit oracle parameters.
-/

namespace Structeasy

/-- The `Node` record of structeasy_class.py: node number, the three
coordinates and the physical-group tag.  The auxiliary containers
(`container`, `data_analysis`, `eltype`) carry caller data that no derived
computation reads, so they are not represented. -/
structure Node where
  nnumber : Int
  x : ℚ
  y : ℚ
  z : ℚ
  tag : Int
deriving DecidableEq, Repr

/-- The `coord` attribute set by `Node.__init__`: the list `[x, y, z]`. -/
def Node.coord (n : Node) : List ℚ := [n.x, n.y, n.z]

/-- The coordinates of a node as an ordered triple. -/
def Node.coord3 (n : Node) : ℚ × ℚ × ℚ := (n.x, n.y, n.z)

/-- The `Element` record of structeasy_class.py: element number, the list of
participating `Node` records, the two node identifiers `nodei`/`nodej`
copied out of the first two list entries, and the physical-group tag. -/
structure Element where
  enumber : Int
  nodes : List Node
  nodei : Int
  nodej : Int
  tag : Int
deriving DecidableEq, Repr

/-- `Element.__init__`: reads `nodes[0].nnumber` and `nodes[1].nnumber`, so a
list with fewer than two entries raises `IndexError`; modelled by `none`.
On success the stored `nodes` field is the full list that was passed in. -/
def Element.make (enumber : Int) (nodes : List Node) (tag : Int) :
    Option Element :=
  match nodes with
  | n0 :: n1 :: _ =>
      some { enumber := enumber, nodes := nodes, nodei := n0.nnumber,
             nodej := n1.nnumber, tag := tag }
  | _ => none

/-- Body of `Element.length`: the guard `len(self.nodes) == 2` followed by
unpacking both `coord` lists and returning the square root of the sum of the
squared coordinate differences; any other list length returns `None`. -/
noncomputable def lengthAux : List Node → Option ℝ
  | [n1, n2] =>
      some (Real.sqrt
        (((n2.x - n1.x) ^ 2 + (n2.y - n1.y) ^ 2 + (n2.z - n1.z) ^ 2 : ℚ) : ℝ))
  | _ => none

/-- `Element.length` of structeasy_class.py. -/
noncomputable def Element.length (e : Element) : Option ℝ := lengthAux e.nodes

/-- The point of `EuclideanSpace ℝ (Fin 3)` holding a node's coordinates;
used to state the spec-side notion of Euclidean distance. -/
noncomputable def nodePoint (n : Node) : EuclideanSpace ℝ (Fin 3) :=
  ![(n.x : ℝ), (n.y : ℝ), (n.z : ℝ)]

theorem lengthAux_of_ne_two (l : List Node) (h : l.length ≠ 2) :
    lengthAux l = none := by
  match l with
  | [] => rfl
  | [a] => rfl
  | [a, b] => exact absurd rfl h
  | a :: b :: c :: t => rfl

theorem dist_nodePoint (a b : Node) :
    dist (nodePoint a) (nodePoint b) =
      Real.sqrt
        (((b.x - a.x) ^ 2 + (b.y - a.y) ^ 2 + (b.z - a.z) ^ 2 : ℚ) : ℝ) := by
  rw [EuclideanSpace.dist_eq]
  congr 1
  rw [Fin.sum_univ_three]
  simp only [nodePoint, Matrix.cons_val_zero, Matrix.cons_val_one,
    Matrix.head_cons, Matrix.cons_val_two, Matrix.tail_cons, Real.dist_eq,
    sq_abs]
  push_cast
  ring

/-- C1.  A two-node element's `length()` is the Euclidean distance between
the two nodes' coordinate points; an element whose nodes list does not have
exactly two entries gets `None`. -/
theorem length_is_euclidean_distance (e : Element) :
    (∀ a b, e.nodes = [a, b] →
        e.length = some (dist (nodePoint a) (nodePoint b))) ∧
    (e.nodes.length ≠ 2 → e.length = none) := by
  constructor
  · intro a b h
    rw [Element.length, h, dist_nodePoint]
    rfl
  · intro h
    exact lengthAux_of_ne_two e.nodes h

def nodeO : Node := { nnumber := 1, x := 0, y := 0, z := 0, tag := -1 }

def nodeP : Node := { nnumber := 2, x := 3, y := 4, z := 0, tag := -1 }

def elemOP : Element :=
  { enumber := 1, nodes := [nodeO, nodeP], nodei := 1, nodej := 2, tag := -1 }

def elemOne : Element :=
  { enumber := 2, nodes := [nodeO], nodei := 1, nodej := 1, tag := -1 }

/-- C1, witness.  The element on nodes (0,0,0) and (3,4,0) has length 5.0,
and an element whose nodes list has a single entry has undefined length. -/
theorem length_is_euclidean_distance_witness :
    elemOP.length = some 5 ∧ elemOne.length = none := by
  have h1 := (length_is_euclidean_distance elemOP).1 nodeO nodeP rfl
  have h2 := (length_is_euclidean_distance elemOne).2 (by decide)
  refine ⟨?_, h2⟩
  rw [h1, dist_nodePoint]
  have h25 : (((nodeP.x - nodeO.x) ^ 2 + (nodeP.y - nodeO.y) ^ 2 +
      (nodeP.z - nodeO.z) ^ 2 : ℚ) : ℝ) = 5 ^ 2 := by
    norm_num [nodeO, nodeP]
  rw [h25, Real.sqrt_sq (by norm_num)]

/-- Componentwise difference of coordinate triples; `numpy.subtract` on the
two `coord` lists. -/
def sub3 (a b : ℚ × ℚ × ℚ) : ℚ × ℚ × ℚ :=
  (a.1 - b.1, a.2.1 - b.2.1, a.2.2 - b.2.2)

/-- The 3-vector cross product as `numpy.cross` computes it on two
3-component lists. -/
def cross3 (a b : ℚ × ℚ × ℚ) : ℚ × ℚ × ℚ :=
  (a.2.1 * b.2.2 - a.2.2 * b.2.1,
   a.2.2 * b.1 - a.1 * b.2.2,
   a.1 * b.2.1 - a.2.1 * b.1)

/-- Scalar multiple of a coordinate triple. -/
def smul3 (c : ℚ) (p : ℚ × ℚ × ℚ) : ℚ × ℚ × ℚ :=
  (c * p.1, c * p.2.1, c * p.2.2)

/-- The default reference vector of `Element.vecxz`: the global vertical
axis `[0, 0, 1]`. -/
def vecxy_default : ℚ × ℚ × ℚ := (0, 0, 1)

/-- Body of `Element.vecxz`: reads `nodes[1].coord` and `nodes[0].coord`
(an `IndexError`, modelled by `none`, when fewer than two nodes exist),
subtracts them to get the axial direction `xaxis`, and returns
`cross(xaxis, vecxy)`. -/
def vecxzAux (nodes : List Node) (vecxy : ℚ × ℚ × ℚ) : Option (ℚ × ℚ × ℚ) :=
  match nodes with
  | n1 :: n2 :: _ => some (cross3 (sub3 n2.coord3 n1.coord3) vecxy)
  | _ => none

/-- `Element.vecxz` of structeasy_class.py, with the reference vector made
an explicit argument (the Python default is the mutable list `[0, 0, 1]`,
here `vecxy_default`). -/
def Element.vecxz (e : Element) (vecxy : ℚ × ℚ × ℚ) : Option (ℚ × ℚ × ℚ) :=
  vecxzAux e.nodes vecxy

/-- A coordinate triple as a `Fin 3` vector, to compare against Mathlib's
`crossProduct`. -/
def toFin3 (p : ℚ × ℚ × ℚ) : Fin 3 → ℚ := ![p.1, p.2.1, p.2.2]

/-- C4.  For an element with at least two nodes, `vecxz` returns exactly the
cross product of the axial direction (second node minus first node) with the
caller-supplied reference vector, whose default is the global vertical axis
(0, 0, 1). -/
theorem vecxz_is_cross_product (e : Element) (v : ℚ × ℚ × ℚ) (a b : Node)
    (rest : List Node) (h : e.nodes = a :: b :: rest) :
    (e.vecxz v).map toFin3 =
      some (crossProduct (toFin3 (sub3 b.coord3 a.coord3)) (toFin3 v)) ∧
    vecxy_default = (0, 0, 1) := by
  constructor
  · rw [Element.vecxz, h, vecxzAux, cross_apply]
    rw [show Option.map toFin3 (some (cross3 (sub3 b.coord3 a.coord3) v)) =
      some (toFin3 (cross3 (sub3 b.coord3 a.coord3) v)) from rfl]
    congr 1
  · rfl

/-- C4, witness.  For the element on nodes (0,0,0) and (3,4,0) with the
default reference vector, `vecxz` agrees with the Mathlib cross product. -/
theorem vecxz_is_cross_product_witness :
    (elemOP.vecxz vecxy_default).map toFin3 =
      some (crossProduct (toFin3 (sub3 nodeP.coord3 nodeO.coord3))
        (toFin3 vecxy_default)) :=
  (vecxz_is_cross_product elemOP vecxy_default nodeO nodeP [] rfl).1

/-- C5.  When the axial vector of a two-or-more-node element is exactly
parallel to the reference vector (either is a scalar multiple of the other),
`vecxz` returns the zero vector. -/
theorem vecxz_parallel_is_zero (e : Element) (v : ℚ × ℚ × ℚ) (a b : Node)
    (rest : List Node) (h : e.nodes = a :: b :: rest) (c : ℚ)
    (hpar : sub3 b.coord3 a.coord3 = smul3 c v ∨
      v = smul3 c (sub3 b.coord3 a.coord3)) :
    e.vecxz v = some (0, 0, 0) := by
  rw [Element.vecxz, h, vecxzAux]
  rcases hpar with hp | hp
  · rw [hp]
    rcases v with ⟨v1, v2, v3⟩
    simp only [cross3, smul3]
    norm_num
    constructor
    · ring
    constructor
    · ring
    · ring
  · rw [hp]
    rcases sub3 b.coord3 a.coord3 with ⟨u1, u2, u3⟩
    simp only [cross3, smul3]
    norm_num
    constructor
    · ring
    constructor
    · ring
    · ring

def nodeQ : Node := { nnumber := 3, x := 0, y := 0, z := 2, tag := -1 }

def elemOQ : Element :=
  { enumber := 3, nodes := [nodeO, nodeQ], nodei := 1, nodej := 3, tag := -1 }

/-- C5, witness.  The vertical element from (0,0,0) to (0,0,2) is parallel to
the default reference vector (0,0,1) and its `vecxz` is the zero vector. -/
theorem vecxz_parallel_is_zero_witness :
    elemOQ.vecxz vecxy_default = some (0, 0, 0) :=
  vecxz_parallel_is_zero elemOQ vecxy_default nodeO nodeQ [] rfl 2
    (Or.inl (by norm_num [sub3, smul3, vecxy_default, Node.coord3, nodeO,
      nodeQ, Prod.ext_iff]))

/-- C9.  A successfully constructed element stores the full nodes list, and
its `nodei` and `nodej` fields are the identifiers of the first and second
entries of that list. -/
theorem make_nodei_nodej (enumber : Int) (nodes : List Node) (tag : Int)
    (el : Element) (h : Element.make enumber nodes tag = some el) :
    el.nodes = nodes ∧
    ∃ a b rest, nodes = a :: b :: rest ∧
      el.nodei = a.nnumber ∧ el.nodej = b.nnumber := by
  match nodes with
  | [] => exact absurd h (by simp [Element.make])
  | [a] => exact absurd h (by simp [Element.make])
  | a :: b :: rest =>
      rw [Element.make] at h
      injection h with h
      subst h
      exact ⟨rfl, a, b, rest, rfl, rfl, rfl⟩

/-- C9, witness.  Constructing an element from the node list
[nodeO, nodeP] yields `nodei = 1` and `nodej = 2`. -/
theorem make_nodei_nodej_witness :
    ∃ el, Element.make 7 [nodeO, nodeP] 0 = some el ∧
      el.nodei = nodeO.nnumber ∧ el.nodej = nodeP.nnumber := by
  cases hmk : Element.make 7 [nodeO, nodeP] 0 with
  | none => exact absurd hmk (by simp [Element.make])
  | some el =>
      obtain ⟨hn, a, b, rest, heq, hi, hj⟩ :=
        make_nodei_nodej 7 [nodeO, nodeP] 0 el hmk
      injection heq with h1 heq
      injection heq with h2 heq
      exact ⟨el, rfl, by rw [hi, ← h1], by rw [hj, ← h2]⟩

/-- C10.  Construction fails exactly when the nodes list has fewer than two
entries; consequently every successfully constructed element has at least
two nodes. -/
theorem make_requires_two_nodes (enumber : Int) (nodes : List Node)
    (tag : Int) :
    (Element.make enumber nodes tag = none ↔ nodes.length < 2) ∧
    (∀ el, Element.make enumber nodes tag = some el →
      2 ≤ el.nodes.length) := by
  match nodes with
  | [] => exact ⟨by simp [Element.make], by simp [Element.make]⟩
  | [a] => exact ⟨by simp [Element.make], by simp [Element.make]⟩
  | a :: b :: rest =>
      constructor
      · simp [Element.make]
      · intro el h
        rw [Element.make] at h
        injection h with h
        subst h
        simp

/-- C10, witness.  Construction from a single-node list fails, and a
successful construction from a two-node list has two stored nodes. -/
theorem make_requires_two_nodes_witness :
    Element.make 8 [nodeO] 0 = none ∧
    (∀ el, Element.make 7 [nodeO, nodeP] 0 = some el →
      2 ≤ el.nodes.length) := by
  constructor
  · exact (make_requires_two_nodes 8 [nodeO] 0).1.mpr (by decide)
  · exact (make_requires_two_nodes 7 [nodeO, nodeP] 0).2

/-- The `model('basic', '-ndm', ndm, '-ndf', ndf)` call that `start_model`
forwards to OpenSeesPy: the spatial dimension count and the degrees of
freedom per node. -/
structure ModelInit where
  ndm : Int
  ndf : Int
deriving DecidableEq, Repr

/-- `start_model` of structeasy_lib.py: wipes the solver and initialises a
basic model with ndm 3 / ndf 6 for the string "3d", ndm 2 / ndf 3 for "2d",
and raises `NameError` for every other string. -/
def start_model (typology : String) : Except String ModelInit :=
  if typology = "3d" then Except.ok { ndm := 3, ndf := 6 }
  else if typology = "2d" then Except.ok { ndm := 2, ndf := 3 }
  else Except.error "-- Not valid model type, try \"2d\" or \"3d\" --"

/-- C2.  "2d" configures 3 degrees of freedom per node, "3d" configures 6,
and the call raises exactly when the argument is neither "2d" nor "3d" (in
particular for "tower"). -/
theorem start_model_spec :
    start_model "2d" = Except.ok { ndm := 2, ndf := 3 } ∧
    start_model "3d" = Except.ok { ndm := 3, ndf := 6 } ∧
    (∀ s : String,
      (∃ msg, start_model s = Except.error msg) ↔ (s ≠ "2d" ∧ s ≠ "3d")) ∧
    (∃ msg, start_model "tower" = Except.error msg) := by
  refine ⟨rfl, rfl, ?_, ?_⟩
  · intro s
    constructor
    · rintro ⟨msg, hmsg⟩
      rw [start_model] at hmsg
      constructor
      · intro h2
        simp [h2] at hmsg
      · intro h3
        simp [h3] at hmsg
    · rintro ⟨h2, h3⟩
      rw [start_model, if_neg h3, if_neg h2]
      exact ⟨_, rfl⟩
  · exact ⟨_, rfl⟩

/-- C2, witness.  The invalid-argument equivalence applied at the concrete
input "tower". -/
theorem start_model_spec_witness :
    (∃ msg, start_model "tower" = Except.error msg) ∧
    start_model "2d" = Except.ok { ndm := 2, ndf := 3 } := by
  refine ⟨(start_model_spec.2.2.1 "tower").mpr (by decide), start_model_spec.1⟩

/-- The predicate of the `if` inside `assign_tag`: the physical group `t`
(a dimension/identifier pair) has the entity's dimension and contains the
entity number, according to gmsh's `getEntitiesForPhysicalGroup` (abstracted
as the oracle `getEnt`). -/
def tagHit (nnumber eltype : Int) (getEnt : Int → Int → List Int)
    (t : Int × Int) : Prop :=
  t.1 = eltype ∧ nnumber ∈ getEnt eltype t.2

instance (nnumber eltype : Int) (getEnt : Int → Int → List Int)
    (t : Int × Int) : Decidable (tagHit nnumber eltype getEnt t) :=
  inferInstanceAs (Decidable (_ ∧ _))

/-- `assign_tag` of structeasy_lib.py: starts from the sentinel -1 and scans
`model_tags` in order, overwriting the result with every group whose
dimension matches and whose entity list contains the entity number. -/
def assign_tag (nnumber eltype : Int) (model_tags : List (Int × Int))
    (getEnt : Int → Int → List Int) : Int :=
  model_tags.foldl
    (fun tag t => if tagHit nnumber eltype getEnt t then t.2 else tag) (-1)

/-- The sub-list of `model_tags` whose groups match the entity, in scan
order. -/
def matchingGroups (nnumber eltype : Int) (model_tags : List (Int × Int))
    (getEnt : Int → Int → List Int) : List (Int × Int) :=
  model_tags.filter (fun t => decide (tagHit nnumber eltype getEnt t))

theorem assign_tag_foldl (nnumber eltype : Int)
    (getEnt : Int → Int → List Int) :
    ∀ (l : List (Int × Int)) (acc : Int),
      l.foldl (fun tag t => if tagHit nnumber eltype getEnt t then t.2
          else tag) acc =
        ((l.filter (fun t => decide (tagHit nnumber eltype getEnt t))).getLast?).elim
          acc Prod.snd
  | [], acc => rfl
  | t :: ts, acc => by
      rw [List.foldl_cons, assign_tag_foldl nnumber eltype getEnt ts,
        List.filter_cons]
      by_cases h : tagHit nnumber eltype getEnt t
      · rw [if_pos h, if_pos (decide_eq_true h)]
        cases hf : ts.filter (fun t => decide (tagHit nnumber eltype getEnt t)) with
        | nil => rfl
        | cons x xs =>
            rw [List.getLast?_cons_cons]
            obtain ⟨y, hy⟩ : ∃ y, (x :: xs).getLast? = some y := by
              cases hq : (x :: xs).getLast? with
              | none => exact absurd (List.getLast?_eq_none_iff.mp hq) (by simp)
              | some y => exact ⟨y, rfl⟩
            rw [hy]
            rfl
      · rw [if_neg h, if_neg (fun hc => h (of_decide_eq_true hc))]

/-- C3.  `assign_tag` returns -1 when no declared group of the entity's
dimension contains it, returns the single matching group's identifier when
exactly one matches, and in general returns the identifier of the last
matching group in scan order. -/
theorem assign_tag_spec (nnumber eltype : Int)
    (model_tags : List (Int × Int)) (getEnt : Int → Int → List Int) :
    ((∀ t ∈ model_tags, ¬ tagHit nnumber eltype getEnt t) →
        assign_tag nnumber eltype model_tags getEnt = -1) ∧
    (∀ g, matchingGroups nnumber eltype model_tags getEnt = [g] →
        assign_tag nnumber eltype model_tags getEnt = g.2) ∧
    (∀ g, (matchingGroups nnumber eltype model_tags getEnt).getLast? = some g →
        assign_tag nnumber eltype model_tags getEnt = g.2) := by
  have hfold := assign_tag_foldl nnumber eltype getEnt model_tags (-1)
  refine ⟨?_, ?_, ?_⟩
  · intro hnone
    rw [assign_tag, hfold]
    have hnil : matchingGroups nnumber eltype model_tags getEnt = [] := by
      rw [matchingGroups, List.filter_eq_nil_iff]
      intro t ht
      simpa using hnone t ht
    rw [matchingGroups] at hnil
    rw [hnil]
    rfl
  · intro g hone
    rw [assign_tag, hfold]
    rw [matchingGroups] at hone
    rw [hone]
    rfl
  · intro g hlast
    rw [assign_tag, hfold]
    rw [matchingGroups] at hlast
    rw [hlast]
    rfl

/-- C3, witness.  With groups (0, 10) and (0, 20) both containing entity 5
and group (1, 30) of another dimension, the scan returns 20 (the last
match); with no matching group it returns -1. -/
theorem assign_tag_spec_witness :
    assign_tag 5 0 [(0, 10), (0, 20), (1, 30)]
        (fun d g => if d = 0 then [5] else []) = 20 ∧
    assign_tag 7 0 [(0, 10)] (fun d g => [5]) = -1 := by
  constructor
  · exact (assign_tag_spec 5 0 [(0, 10), (0, 20), (1, 30)]
      (fun d g => if d = 0 then [5] else [])).2.2 (0, 20) (by decide)
  · exact (assign_tag_spec 7 0 [(0, 10)] (fun d g => [5])).1
      (by decide)

/-- The external calls made inside the `try` block of `material_tester`,
abstracted as fallible state transformers over an opaque solver/plotting
state `σ` with error type `ε`: `testUniaxialMaterial`, `setStrain`,
`getStress`, and the matplotlib figure construction. -/
structure MatOps (σ ε : Type) where
  testUniaxialMaterial : Int → σ → Except ε σ
  setStrain : ℚ → σ → Except ε σ
  getStress : σ → Except ε (ℚ × σ)
  mkFigure : String → List ℚ → List ℚ → σ → Except ε σ

/-- The `for eps in strain` loop of `material_tester`: set each strain and
append the resulting stress, failing as soon as any external call fails. -/
def strainLoop (ops : MatOps σ ε) : List ℚ → List ℚ → σ →
    Except ε (List ℚ × σ)
  | [], acc, s => Except.ok (acc, s)
  | eps :: rest, acc, s => do
      let s1 ← ops.setStrain eps s
      let (st, s2) ← ops.getStress s1
      strainLoop ops rest (acc ++ [st]) s2

/-- The whole `try` block of `material_tester`: test the material, run the
strain loop, and build the stress-strain figure with the stresses divided by
`scaleStress`. -/
def tester_body (ops : MatOps σ ε) (matTag : Int) (strain : List ℚ)
    (title : String) (scaleStress : ℚ) (s : σ) : Except ε (List ℚ × σ) := do
  let s1 ← ops.testUniaxialMaterial matTag s
  let (stress, s2) ← strainLoop ops strain [] s1
  let scaled := stress.map (fun v => v / scaleStress)
  let s3 ← ops.mkFigure (title ++ " | Material Tag: " ++ toString matTag)
    strain scaled s2
  Except.ok (scaled, s3)

/-- The observable outcome of `material_tester`: either the plotted scaled
stresses, or the printed diagnostic line; the Python function has no other
exit (no exception escapes the bare `except`). -/
inductive TesterOutcome (σ : Type) where
  | plotted (scaledStress : List ℚ) (s : σ)
  | diagnostic (msg : String)
deriving DecidableEq

/-- `material_tester` of structeasy_lib.py: runs the `try` block and turns
any failure whatsoever into the printed diagnostic message. -/
def material_tester (ops : MatOps σ ε) (matTag : Int) (strain : List ℚ)
    (title : String) (scaleStress : ℚ) (s : σ) : TesterOutcome σ :=
  match tester_body ops matTag strain title scaleStress s with
  | Except.ok (scaled, s2) => TesterOutcome.plotted scaled s2
  | Except.error _ =>
      TesterOutcome.diagnostic
        "Please check material and openseespy definition or matplotlib library"

/-- C6.  `material_tester` never propagates a failure: for every oracle
behaviour and every input it returns an ordinary outcome, the diagnostic
message exactly when some call of the `try` block failed, and the plotted
result exactly when none did. -/
theorem material_tester_total (ops : MatOps σ ε) (matTag : Int)
    (strain : List ℚ) (title : String) (scaleStress : ℚ) (s : σ) :
    ((∃ err, tester_body ops matTag strain title scaleStress s =
        Except.error err) →
      material_tester ops matTag strain title scaleStress s =
        TesterOutcome.diagnostic
          "Please check material and openseespy definition or matplotlib library") ∧
    (∀ out s2, tester_body ops matTag strain title scaleStress s =
        Except.ok (out, s2) →
      material_tester ops matTag strain title scaleStress s =
        TesterOutcome.plotted out s2) ∧
    ((∃ out s2, material_tester ops matTag strain title scaleStress s =
        TesterOutcome.plotted out s2) ∨
      material_tester ops matTag strain title scaleStress s =
        TesterOutcome.diagnostic
          "Please check material and openseespy definition or matplotlib library") := by
  refine ⟨?_, ?_, ?_⟩
  · rintro ⟨err, herr⟩
    rw [material_tester, herr]
  · intro out s2 hok
    rw [material_tester, hok]
  · rw [material_tester]
    cases tester_body ops matTag strain title scaleStress s with
    | ok v => exact Or.inl ⟨v.1, v.2, rfl⟩
    | error e => exact Or.inr rfl

/-- An oracle over trivial state whose material test always fails. -/
def failingOps : MatOps Unit Unit :=
  { testUniaxialMaterial := fun _ _ => Except.error (),
    setStrain := fun _ s => Except.ok s,
    getStress := fun s => Except.ok (0, s),
    mkFigure := fun _ _ _ s => Except.ok s }

/-- An oracle over trivial state whose calls all succeed, with zero stress. -/
def okOps : MatOps Unit Unit :=
  { testUniaxialMaterial := fun _ s => Except.ok s,
    setStrain := fun _ s => Except.ok s,
    getStress := fun s => Except.ok (0, s),
    mkFigure := fun _ _ _ s => Except.ok s }

/-- C6, witness.  Against the always-failing oracle (a missing material) the
tester returns the diagnostic, and against the all-ok oracle it returns the
plotted stresses; neither run escapes with an error. -/
theorem material_tester_total_witness :
    material_tester failingOps 1 [0] "t" 1 () =
      TesterOutcome.diagnostic
        "Please check material and openseespy definition or matplotlib library" ∧
    material_tester okOps 1 [0] "t" 1 () = TesterOutcome.plotted [0] () := by
  constructor
  · exact (material_tester_total failingOps 1 [0] "t" 1 ()).1 ⟨(), rfl⟩
  · have hok : tester_body okOps 1 [0] "t" 1 () = Except.ok ([0], ()) := by
      simp [tester_body, strainLoop, okOps, Except.bind, bind]
    exact (material_tester_total okOps 1 [0] "t" 1 ()).2.1 [0] () hok

/-- A colour as `plot_model` distinguishes them: a position on the evenly
spaced `cm.rainbow(np.linspace(0, 1, len(tags)))` ramp (the colormap is an
external injection from ramp positions to rgb strings), or one of the two
fixed defaults, red for nodes and black for elements. -/
inductive Color where
  | ramp (t : ℚ)
  | red
  | black
deriving DecidableEq, Repr

/-- `np.linspace(0, 1, n)`: `n` evenly spaced samples of [0, 1]; the single
sample for `n = 1` is 0, and `n = 0` gives the empty list. -/
def linspace01 (n : Nat) : List ℚ :=
  if n ≤ 1 then List.replicate n 0
  else (List.range n).map (fun (i : ℕ) => (i : ℚ) / ((n : ℚ) - 1))

/-- The `tags` list of `plot_model`: the distinct tags over the node and
element collections with the sentinel -1 dropped
(`list(set([...] + [...]))`, with first-occurrence order standing in for the
set's unspecified iteration order). -/
def plot_tags (nodes_db : List (Int × Node))
    (elements_db : List (Int × Element)) : List Int :=
  (((nodes_db.map (fun p => p.2.tag)).filter (fun t => t != -1)) ++
    ((elements_db.map (fun p => p.2.tag)).filter (fun t => t != -1))).dedup

/-- The `tag_color_map` dictionary of `plot_model`:
`zip(tags, cm.rainbow(np.linspace(0, 1, len(tags))))` as an association
list. -/
def tag_color_map (tags : List Int) : List (Int × Color) :=
  tags.zip ((linspace01 tags.length).map Color.ramp)

/-- `tag_color_map.get(node.tag, 'red')` for one node. -/
def node_color_of (m : List (Int × Color)) (n : Node) : Color :=
  (List.lookup n.tag m).getD Color.red

/-- The `node_color` list of `plot_model`: per-node map lookups defaulting
to red when colouring by tag, otherwise red throughout. -/
def node_colors (color_by_tag : Bool) (m : List (Int × Color))
    (nodes_db : List (Int × Node)) : List Color :=
  if color_by_tag then nodes_db.map (fun p => node_color_of m p.2)
  else List.replicate nodes_db.length Color.red

/-- The per-element `color = tag_color_map.get(element.tag, 'black')` when
colouring by tag, otherwise black. -/
def element_color (color_by_tag : Bool) (m : List (Int × Color))
    (e : Element) : Color :=
  if color_by_tag then (List.lookup e.tag m).getD Color.black
  else Color.black

theorem linspace01_length (n : Nat) : (linspace01 n).length = n := by
  rw [linspace01]
  split
  · exact List.length_replicate n 0
  · rw [List.length_map, List.length_range]

theorem linspace01_nodup (n : Nat) : (linspace01 n).Nodup := by
  rw [linspace01]
  split
  · rename_i h
    have h01 : n = 0 ∨ n = 1 := by omega
    rcases h01 with h0 | h1
    · subst h0
      simp
    · subst h1
      simp
  · rename_i h
    have h2 : 2 ≤ n := by omega
    have hc : ((n : ℚ) - 1) ≠ 0 := by
      have hcast : (2 : ℚ) ≤ (n : ℚ) := by exact_mod_cast h2
      intro hc0
      linarith
    refine List.Nodup.map ?_ (List.nodup_range n)
    intro i j hij
    rw [div_eq_div_iff hc hc] at hij
    have hij2 : (i : ℚ) = (j : ℚ) :=
      mul_right_cancel₀ hc (by linarith)
    exact_mod_cast hij2

theorem lookup_eq_none_of_not_mem_keys {β : Type} (m : List (Int × β))
    (t : Int) (h : t ∉ m.map Prod.fst) : List.lookup t m = none := by
  induction m with
  | nil => rfl
  | cons kv m ih =>
      obtain ⟨k, v⟩ := kv
      rw [List.map_cons, List.mem_cons] at h
      push_neg at h
      have hbe : (t == k) = false := beq_eq_false_iff_ne.mpr (by simpa using h.1)
      simp only [List.lookup, hbe]
      exact ih h.2

theorem plot_tags_nodup (nodes_db : List (Int × Node))
    (elements_db : List (Int × Element)) :
    (plot_tags nodes_db elements_db).Nodup :=
  List.nodup_dedup _

theorem mem_plot_tags (nodes_db : List (Int × Node))
    (elements_db : List (Int × Element)) (t : Int) :
    t ∈ plot_tags nodes_db elements_db ↔
      (t ≠ -1 ∧ ((∃ p ∈ nodes_db, p.2.tag = t) ∨
        (∃ p ∈ elements_db, p.2.tag = t))) := by
  rw [plot_tags, List.mem_dedup, List.mem_append]
  simp only [List.mem_filter, List.mem_map, bne_iff_ne, ne_eq]
  constructor
  · rintro (⟨⟨p, hp, hpt⟩, hne⟩ | ⟨⟨p, hp, hpt⟩, hne⟩)
    · exact ⟨by simpa [hpt] using hne, Or.inl ⟨p, hp, hpt⟩⟩
    · exact ⟨by simpa [hpt] using hne, Or.inr ⟨p, hp, hpt⟩⟩
  · rintro ⟨hne, ⟨p, hp, hpt⟩ | ⟨p, hp, hpt⟩⟩
    · exact Or.inl ⟨⟨p, hp, hpt⟩, by simpa [hpt] using hne⟩
    · exact Or.inr ⟨⟨p, hp, hpt⟩, by simpa [hpt] using hne⟩

theorem tag_color_map_keys (tags : List Int) :
    (tag_color_map tags).map Prod.fst = tags := by
  rw [tag_color_map]
  exact List.map_fst_zip _ _ (by rw [List.length_map, linspace01_length])

theorem tag_color_map_colors (tags : List Int) :
    (tag_color_map tags).map Prod.snd =
      (linspace01 tags.length).map Color.ramp := by
  rw [tag_color_map]
  exact List.map_snd_zip _ _ (by rw [List.length_map, linspace01_length])

theorem tag_color_map_colors_nodup (tags : List Int) :
    ((tag_color_map tags).map Prod.snd).Nodup := by
  rw [tag_color_map_colors]
  refine List.Nodup.map ?_ (linspace01_nodup tags.length)
  intro x y hxy
  injection hxy

/-- C7.  With `color_by_tag=True` the colour map is keyed by exactly the
distinct tags over nodes and elements minus the sentinel -1, distinct tags
receive distinct ramp colours (two distinct tags give exactly two distinct
colours), and an entity whose tag is not a key gets the fixed default: red
for a node, black for an element. -/
theorem color_by_tag_spec (nodes_db : List (Int × Node))
    (elements_db : List (Int × Element)) :
    ((tag_color_map (plot_tags nodes_db elements_db)).map Prod.fst =
        plot_tags nodes_db elements_db) ∧
    (plot_tags nodes_db elements_db).Nodup ∧
    (∀ t, t ∈ plot_tags nodes_db elements_db ↔
      (t ≠ -1 ∧ ((∃ p ∈ nodes_db, p.2.tag = t) ∨
        (∃ p ∈ elements_db, p.2.tag = t)))) ∧
    ((tag_color_map (plot_tags nodes_db elements_db)).map Prod.snd).Nodup ∧
    ((plot_tags nodes_db elements_db).length = 2 →
      (((tag_color_map (plot_tags nodes_db elements_db)).map
        Prod.snd).dedup).length = 2) ∧
    (∀ p ∈ nodes_db,
      p.2.tag ∉ plot_tags nodes_db elements_db →
        node_color_of (tag_color_map (plot_tags nodes_db elements_db)) p.2 =
          Color.red) ∧
    (∀ e : Element, e.tag ∉ plot_tags nodes_db elements_db →
      element_color true (tag_color_map (plot_tags nodes_db elements_db)) e =
        Color.black) := by
  refine ⟨tag_color_map_keys _, plot_tags_nodup _ _, mem_plot_tags _ _,
    tag_color_map_colors_nodup _, ?_, ?_, ?_⟩
  · intro hlen
    rw [List.dedup_eq_self.mpr (tag_color_map_colors_nodup _),
      List.length_map, tag_color_map, List.length_zip, List.length_map,
      linspace01_length, hlen]
    rfl
  · intro p hp hmem
    rw [node_color_of, lookup_eq_none_of_not_mem_keys]
    · rfl
    · rw [tag_color_map_keys]
      exact hmem
  · intro e hmem
    rw [element_color, if_pos rfl, lookup_eq_none_of_not_mem_keys]
    · rfl
    · rw [tag_color_map_keys]
      exact hmem

def nodeT : Node := { nnumber := 4, x := 1, y := 0, z := 0, tag := 10 }

def nodeU : Node := { nnumber := 5, x := 0, y := 1, z := 0, tag := -1 }

def elemT : Element :=
  { enumber := 4, nodes := [nodeT, nodeU], nodei := 4, nodej := 5, tag := 20 }

/-- C7, witness.  On a model with node tags 10 and -1 and element tag 20,
the distinct non-sentinel tags are [10, 20], the map assigns them exactly
two distinct colours, and the -1-tagged node and an untagged element fall
back to red and black. -/
theorem color_by_tag_spec_witness :
    (((tag_color_map (plot_tags [(4, nodeT), (5, nodeU)] [(4, elemT)])).map
        Prod.snd).dedup).length = 2 ∧
    node_color_of (tag_color_map (plot_tags [(4, nodeT), (5, nodeU)]
        [(4, elemT)])) nodeU = Color.red ∧
    element_color true (tag_color_map (plot_tags [(4, nodeT), (5, nodeU)]
        [(4, elemT)])) elemOP = Color.black := by
  have h := color_by_tag_spec [(4, nodeT), (5, nodeU)] [(4, elemT)]
  refine ⟨h.2.2.2.2.1 (by decide), ?_, h.2.2.2.2.2.2 elemOP (by decide)⟩
  exact h.2.2.2.2.2.1 (5, nodeU) (by decide) (by decide)

/-- The `go.Scatter3d` trace built for all nodes: coordinate lists, the
per-node colour list, the optional per-node labels (`None` unless
`show_numbers`), the marker mode and the legend flag. -/
structure NodeTrace where
  xs : List ℚ
  ys : List ℚ
  zs : List ℚ
  colors : List Color
  texts : Option (List String)
  mode : String
  showlegend : Bool
deriving DecidableEq, Repr

/-- The optional `mid_trace` overlay of one element: the midpoint of the
element's node coordinates and its label. -/
structure MidTrace where
  x : ℚ
  y : ℚ
  z : ℚ
  text : Option String
  color : Color
deriving DecidableEq, Repr

/-- The `go.Scatter3d` line trace of one element. -/
structure LineTrace where
  xs : List ℚ
  ys : List ℚ
  zs : List ℚ
  color : Color
  showlegend : Bool
deriving DecidableEq, Repr

/-- The traces contributed by one element: the line, preceded by the
midpoint label when `show_numbers or show_tags`. -/
structure ElemTraces where
  mid : Option MidTrace
  line : LineTrace
deriving DecidableEq, Repr

/-- The figure assembled by `plot_model` before `fig.show()`. -/
structure Figure where
  nodeTrace : NodeTrace
  elems : List ElemTraces
deriving DecidableEq, Repr

/-- What a `plot_model` call produces: the shown figure, the html file it
wrote (`filename` exactly when `save_html`), and the two collections as the
call leaves them. -/
structure PlotResult where
  figure : Figure
  written : Option String
  nodes_db_out : List (Int × Node)
  elements_db_out : List (Int × Element)
deriving DecidableEq, Repr

/-- The loop body over `elements_db.items()`: coordinate lists from the
element's nodes, the colour, the label, and the midpoint
`sum(x) / len(x)` — a `ZeroDivisionError` (modelled as the `Except` error)
when the element has no nodes. -/
def elem_traces (show_numbers show_tags color_by_tag : Bool)
    (m : List (Int × Color)) (enumber : Int) (e : Element) :
    Except String ElemTraces :=
  let xs := e.nodes.map (fun n => n.x)
  let ys := e.nodes.map (fun n => n.y)
  let zs := e.nodes.map (fun n => n.z)
  let color := element_color color_by_tag m e
  let text := if show_tags then
      some (toString enumber ++ "<br>Tag: " ++ toString e.tag)
    else if show_numbers then some (toString enumber) else none
  if e.nodes.length = 0 then Except.error "ZeroDivisionError"
  else
    Except.ok
      { mid :=
          if show_numbers || show_tags then
            some { x := xs.sum / (xs.length : ℚ), y := ys.sum / (ys.length : ℚ),
                   z := zs.sum / (zs.length : ℚ), text := text, color := color }
          else none,
        line := { xs := xs, ys := ys, zs := zs, color := color,
                  showlegend := false } }

/-- `plot_model` of structeasy_lib.py: builds the colour map when
`color_by_tag`, one scatter trace over all nodes, per-element line and
midpoint traces, shows the figure, and writes the html file only when
`save_html`.  The two collections are only read. -/
def plot_model (nodes_db : List (Int × Node))
    (elements_db : List (Int × Element))
    (show_numbers show_tags color_by_tag save_html : Bool)
    (filename : String) (show_legend : Bool) : Except String PlotResult := do
  let m := if color_by_tag then
      tag_color_map (plot_tags nodes_db elements_db) else []
  let ntrace : NodeTrace :=
    { xs := nodes_db.map (fun p => p.2.x),
      ys := nodes_db.map (fun p => p.2.y),
      zs := nodes_db.map (fun p => p.2.z),
      colors := node_colors color_by_tag m nodes_db,
      texts :=
        if show_numbers then
          some (nodes_db.map (fun p =>
            if show_tags then
              toString p.1 ++ "<br>Tag: " ++ toString p.2.tag
            else toString p.1))
        else none,
      mode := if show_numbers || show_tags then "markers+text" else "markers",
      showlegend := show_legend }
  let etraces ← elements_db.mapM (fun p =>
    elem_traces show_numbers show_tags color_by_tag m p.1 p.2)
  Except.ok
    { figure := { nodeTrace := ntrace, elems := etraces },
      written := if save_html then some filename else none,
      nodes_db_out := nodes_db,
      elements_db_out := elements_db }

/-- C8.  `plot_model` is a read-only projection: whenever it returns, the
node and element collections it hands back are exactly the ones it was
given, record for record, and the only persisted artefact is the optional
html file. -/
theorem plot_model_read_only (nodes_db : List (Int × Node))
    (elements_db : List (Int × Element))
    (show_numbers show_tags color_by_tag save_html : Bool)
    (filename : String) (show_legend : Bool) (r : PlotResult)
    (h : plot_model nodes_db elements_db show_numbers show_tags color_by_tag
      save_html filename show_legend = Except.ok r) :
    r.nodes_db_out = nodes_db ∧ r.elements_db_out = elements_db ∧
    r.written = (if save_html then some filename else none) := by
  rw [plot_model] at h
  cases hm : elements_db.mapM (fun p =>
      elem_traces show_numbers show_tags color_by_tag
        (if color_by_tag then
          tag_color_map (plot_tags nodes_db elements_db) else []) p.1 p.2) with
  | error e =>
      rw [hm] at h
      exact absurd h (by simp [Bind.bind, Except.bind])
  | ok ts =>
      rw [hm] at h
      simp only [Bind.bind, Except.bind, Except.ok.injEq] at h
      subst h
      exact ⟨rfl, rfl, rfl⟩

/-- C8, witness.  A concrete call with `save_html=True` returns the two
collections unchanged and records only the requested html filename. -/
theorem plot_model_read_only_witness :
    ∃ r, plot_model [(1, nodeO), (2, nodeP)] [(1, elemOP)]
        false false false true "plot.html" false = Except.ok r ∧
      r.nodes_db_out = [(1, nodeO), (2, nodeP)] ∧
      r.elements_db_out = [(1, elemOP)] ∧
      r.written = some "plot.html" := by
  cases hr : plot_model [(1, nodeO), (2, nodeP)] [(1, elemOP)]
      false false false true "plot.html" false with
  | error e =>
      exact absurd hr (by
        simp [plot_model, elem_traces, elemOP, Bind.bind, Except.bind,
          List.mapM, List.mapM.loop, Pure.pure, Except.pure])
  | ok r =>
      obtain ⟨h1, h2, h3⟩ := plot_model_read_only [(1, nodeO), (2, nodeP)]
        [(1, elemOP)] false false false true "plot.html" false r hr
      exact ⟨r, rfl, h1, h2, by simpa using h3⟩

end Structeasy
